import Mathlib

/-!
Verification of the apm-queue pubsublite consumer and the Azure SASL helper.

The definitions below are a shallow embedding of the Go source:

* `RetryMap` models the `sync.Map` retry tracker (`consumer.failed`),
  keyed by message ID and holding `int` attempt counts, with the
  `Load` / `Store` / `Delete` / `LoadOrStore` operations used by the code.
* `processMessage` models `consumer.processMessage` (pubsublite/consumer.go,
  lines 256-313): the external decoder and batch-processor outcomes are
  inputs, the external `partitionOffset` metadata parser is an abstract
  function `po`, and the observable effects (ack, nack, log records,
  processor invocation, tracker deletion) are returned as an ordered trace
  together with the final tracker state.
* `deferStep` / `runSchedule` model the deferred failure branch of
  `processMessage` (lines 280-291) at the granularity of one `sync.Map`
  operation per step, so that interleavings of concurrent deliveries of the
  same message ID can be enumerated: phase one is the `LoadOrStore` call,
  phase two is the single following shared operation (`Store`, or
  `Nack`+`Delete`).
* `ConsumerConfig.Validate` models `ConsumerConfig.Validate` (lines 91-120),
  returning the list of accumulated error messages; `errors.Join` returns a
  nil error exactly when the list is empty.
* `Consumer.Run` / `Consumer.Close` model the lifecycle guards of
  `Consumer.Run` (lines 210-217) and `Consumer.Close` (lines 201-206);
  calling a nil Go function value is a runtime panic, modelled by
  `CloseOutcome.panicNilCall`.
* `receiveLoop` models the per-subscription receive loop body of
  `Consumer.Run` (lines 222-235) applied to the list of successive results
  of the blocking `Receive` call.
* `NewFromCredential` models `saslazure.NewFromCredential`
  (kafka/sasl/azure/oauth.go, lines 39-50), exposing the auth callback the
  returned mechanism wraps.
-/

/-- Attempt counts are Go `int` values. The tracker is an association list
with unique keys, mirroring the key-value view of `sync.Map`. -/
abbrev RetryMap := List (String × Int)

/-- sync.Map.Load: the value stored for a key, if present. -/
def RetryMap.Load : RetryMap → String → Option Int
  | [], _ => none
  | (k, v) :: rest, key => if k = key then some v else RetryMap.Load rest key

/-- sync.Map.Store: set the value for a key. -/
def RetryMap.Store : RetryMap → String → Int → RetryMap
  | [], key, v => [(key, v)]
  | (k, w) :: rest, key, v =>
      if k = key then (key, v) :: rest else (k, w) :: RetryMap.Store rest key v

/-- sync.Map.Delete: remove a key. -/
def RetryMap.Delete : RetryMap → String → RetryMap
  | [], _ => []
  | (k, w) :: rest, key =>
      if k = key then RetryMap.Delete rest key else (k, w) :: RetryMap.Delete rest key

/-- sync.Map.LoadOrStore: return the existing value if the key is present,
otherwise store the given value; one atomic operation. The first component
is the previously stored value (`none` when the key was absent). -/
def RetryMap.LoadOrStore (m : RetryMap) (key : String) (v : Int) : Option Int × RetryMap :=
  match RetryMap.Load m key with
  | some a => (some a, m)
  | none => (none, RetryMap.Store m key v)

theorem RetryMap.Load_Store_self (m : RetryMap) (k : String) (v : Int) :
    RetryMap.Load (RetryMap.Store m k v) k = some v := by
  induction m with
  | nil => simp [RetryMap.Store, RetryMap.Load]
  | cons p rest ih =>
      obtain ⟨a, b⟩ := p
      by_cases hak : a = k <;> simp [RetryMap.Store, RetryMap.Load, hak, ih]

theorem RetryMap.Load_Delete_self (m : RetryMap) (k : String) :
    RetryMap.Load (RetryMap.Delete m k) k = none := by
  induction m with
  | nil => simp [RetryMap.Delete, RetryMap.Load]
  | cons p rest ih =>
      obtain ⟨a, b⟩ := p
      by_cases hak : a = k <;> simp [RetryMap.Delete, RetryMap.Load, hak, ih]

/-- apmqueue.DeliveryType: the two recognised values, plus any other value of
the underlying integer type (hit by the `default` of the validation switch). -/
inductive DeliveryType
  | atMostOnce
  | atLeastOnce
  | invalid
deriving DecidableEq

/-- pubsub.Message as seen by the consumer: opaque ID (encoding partition and
offset), raw payload bytes, and string attributes. -/
structure Msg where
  ID : String
  Data : List Nat
  Attributes : List (String × String)
deriving DecidableEq

/-- Observable effects of one `processMessage` invocation, in program order.
Log records carry the fields the code attaches to them. -/
inductive Effect
  | ack
  | nack
  | invokeProcessor
  | logDecodeError (err : String) (payload : List Nat) (offset : Int) (partition : Int)
      (attrs : List (String × String))
  | logProcessError (err : String) (offset : Int) (partition : Int)
      (attrs : List (String × String))
  | logRecovered (offset : Int) (partition : Int) (attrs : List (String × String))
  | trackerDelete (id : String)
deriving DecidableEq

/-- consumer.processMessage (pubsublite/consumer.go lines 256-313).

`po` abstracts `partitionOffset` (a pure function of the message ID built on
the external `pscompat.ParseMessageMetadata`); `decodeRes` is the outcome of
`c.decoder.Decode(msg.Data, &event)`; `procRes` is the outcome of
`c.processor.ProcessBatch(ctx, &batch)`. The result is the final tracker
state and the ordered effect trace. The decoder error branch registers
`defer msg.Nack()` before logging, so the nack is emitted after the log
record; under AtLeastOnce the deferred ack/nack decision runs after the
in-body process-error log. -/
def processMessage (po : String → Int × Int) (delivery : DeliveryType)
    (decodeRes : Except String Unit) (procRes : Except String Unit)
    (failed : RetryMap) (msg : Msg) : RetryMap × List Effect :=
  match decodeRes with
  | Except.error e =>
      (failed,
        [Effect.logDecodeError e msg.Data (po msg.ID).2 (po msg.ID).1 msg.Attributes,
         Effect.nack])
  | Except.ok _ =>
      let body : List Effect :=
        Effect.invokeProcessor ::
          (match procRes with
           | Except.error e =>
               [Effect.logProcessError e (po msg.ID).2 (po msg.ID).1 msg.Attributes]
           | Except.ok _ => [])
      match delivery with
      | DeliveryType.atMostOnce => (failed, Effect.ack :: body)
      | DeliveryType.atLeastOnce =>
          match procRes with
          | Except.error _ =>
              let r := RetryMap.LoadOrStore failed msg.ID 1
              let attempt : Int :=
                match r.1 with
                | some a => 1 + a
                | none => 1
              if attempt > 2 then
                (RetryMap.Delete r.2 msg.ID,
                  body ++ [Effect.nack, Effect.trackerDelete msg.ID])
              else
                (RetryMap.Store r.2 msg.ID attempt, body)
          | Except.ok _ =>
              (RetryMap.Delete failed msg.ID,
                body ++
                  [Effect.logRecovered (po msg.ID).2 (po msg.ID).1 msg.Attributes,
                   Effect.ack, Effect.trackerDelete msg.ID])
      | DeliveryType.invalid => (failed, body)

/-- ConsumerConfig (pubsublite/consumer.go lines 49-72). The reference fields
Decoder, Logger and Processor matter to validation only through nil-ness, so
they are modelled as `Option Unit` (`none` = Go nil). -/
structure ConsumerConfig where
  Region : String
  Project : String
  Topics : List String
  Decoder : Option Unit
  Logger : Option Unit
  Processor : Option Unit
  Delivery : DeliveryType
deriving DecidableEq

/-- ConsumerConfig.Validate (pubsublite/consumer.go lines 91-120): the list of
error messages accumulated in `errs`, in program order. `errors.Join(errs...)`
returns a nil error exactly when this list is empty. -/
def ConsumerConfig.Validate (cfg : ConsumerConfig) : List String :=
  (if cfg.Topics.length = 0 then ["pubsublite: at least one topic must be set"] else []) ++
  (if cfg.Project = "" then ["pubsublite: project must be set"] else []) ++
  (if cfg.Region = "" then ["pubsublite: region must be set"] else []) ++
  (if cfg.Decoder = none then ["pubsublite: decoder must be set"] else []) ++
  (if cfg.Logger = none then ["pubsublite: logger must be set"] else []) ++
  (if cfg.Processor = none then ["pubsublite: processor must be set"] else []) ++
  (match cfg.Delivery with
   | DeliveryType.atLeastOnce => []
   | DeliveryType.atMostOnce => []
   | DeliveryType.invalid => ["pubsublite: delivery is not valid"])

/-- Supervisor state (pubsublite/consumer.go lines 125-131) as far as the
lifecycle guards observe it: the stored `context.CancelFunc` (nil = `none`),
the number of per-subscription consumers, and how many receive loops have
been started by `g.Go`. -/
structure ConsumerState where
  stopSubscriber : Option Unit
  numConsumers : Nat
  loopsStarted : Nat
deriving DecidableEq

/-- Consumer.Run entry guard (pubsublite/consumer.go lines 210-217 and the
loop-spawning at lines 219-236): if `stopSubscriber` is already non-nil the
call returns the "already started" error with no state change; otherwise the
cancellation function is stored and one receive loop per consumer starts.
The returned option is the double-start error path only. -/
def Consumer.Run (c : ConsumerState) : Option String × ConsumerState :=
  match c.stopSubscriber with
  | some u => (some "pubsublite: consumer already started", ConsumerState.mk (some u) c.numConsumers c.loopsStarted)
  | none =>
      (none, ConsumerState.mk (some ()) c.numConsumers (c.loopsStarted + c.numConsumers))

/-- Outcome of Consumer.Close: either a Go runtime panic from invoking a nil
function value, or a normal return carrying the returned error. -/
inductive CloseOutcome
  | panicNilCall
  | ret (err : Option String)
deriving DecidableEq

/-- Consumer.Close (pubsublite/consumer.go lines 201-206): it invokes
`c.stopSubscriber()` unconditionally; when that function value is nil (Run
never called) the invocation is a runtime panic, otherwise it cancels the
context and Close returns nil. -/
def Consumer.Close (c : ConsumerState) : CloseOutcome :=
  match c.stopSubscriber with
  | none => CloseOutcome.panicNilCall
  | some _ => CloseOutcome.ret none

/-- An error value returned by the blocking Receive call: nil, the sentinel
`pscompat.ErrBackendUnavailable`, or any other error. -/
inductive GoErr
  | backendUnavailable
  | fatal (msg : String)
deriving DecidableEq

/-- The receive loop body of Consumer.Run (pubsublite/consumer.go lines
222-235), applied to the successive results of `consumer.Receive`: a result
matching `ErrBackendUnavailable` makes the loop re-invoke Receive; any other
result is returned from the goroutine. `none` means the planned results were
exhausted with the loop still running. -/
def receiveLoop : List (Option GoErr) → Option (Option GoErr)
  | [] => none
  | some GoErr.backendUnavailable :: rest => receiveLoop rest
  | r :: _ => some r

/-- One concurrent delivery attempt executing the failure branch of the
deferred function in processMessage (pubsublite/consumer.go lines 280-291):
`start` is before the `LoadOrStore` call; `loaded attempt` is after it, with
the local attempt value computed; `done nacked` is after the single following
shared operation (`Store`, or the nack-and-`Delete` pair when the attempt
count exceeds 2). Each phase transition performs exactly one operation on the
shared tracker, matching the code's shared-memory access points. -/
inductive FailPhase
  | start
  | loaded (attempt : Int)
  | done (nacked : Bool)
deriving DecidableEq

/-- One atomic step of a delivery attempt in the deferred failure branch. -/
def deferStep (id : String) (m : RetryMap) : FailPhase → RetryMap × FailPhase
  | FailPhase.start =>
      match RetryMap.Load m id with
      | some a => (m, FailPhase.loaded (1 + a))
      | none => (RetryMap.Store m id 1, FailPhase.loaded 1)
  | FailPhase.loaded attempt =>
      if attempt > 2 then (RetryMap.Delete m id, FailPhase.done true)
      else (RetryMap.Store m id attempt, FailPhase.done false)
  | FailPhase.done b => (m, FailPhase.done b)

/-- Interleave two concurrent failed deliveries of the same message ID under
a schedule: `false` runs one atomic step of thread 0, `true` of thread 1. -/
def runSchedule (id : String) :
    List Bool → RetryMap → FailPhase → FailPhase → RetryMap × FailPhase × FailPhase
  | [], m, t0, t1 => (m, t0, t1)
  | false :: rest, m, t0, t1 =>
      runSchedule id rest (deferStep id m t0).1 (deferStep id m t0).2 t1
  | true :: rest, m, t0, t1 =>
      runSchedule id rest (deferStep id m t1).1 t0 (deferStep id m t1).2

/-- policy.TokenRequestOptions, restricted to the field the code sets. -/
structure TokenRequestOptions where
  Scopes : List String
deriving DecidableEq

/-- azcore.AccessToken, restricted to the field the code reads. -/
structure AccessToken where
  Token : String
deriving DecidableEq

/-- oauth.Auth, restricted to the field the code sets; the Go zero value has
an empty token. -/
structure Auth where
  Token : String
deriving DecidableEq

/-- saslazure.NewFromCredential (kafka/sasl/azure/oauth.go lines 39-50): the
auth callback wrapped by the returned `oauth.Oauth` mechanism. The credential
is its `GetToken` behaviour (the context argument is passed through
unchanged and carries no information for this model); the result models the
Go pair `(oauth.Auth, error)`. -/
def NewFromCredential (cred : TokenRequestOptions → Except String AccessToken)
    (ns : String) : Auth × Option String :=
  match cred (TokenRequestOptions.mk ["https://" ++ ns ++ "/.default"]) with
  | Except.error err => (Auth.mk "", some err)
  | Except.ok token => (Auth.mk token.Token, none)

theorem processFail_first (po : String → Int × Int) (msg : Msg) (failed : RetryMap)
    (e : String) (h : RetryMap.Load failed msg.ID = none) :
    processMessage po DeliveryType.atLeastOnce (Except.ok ()) (Except.error e) failed msg =
      (RetryMap.Store (RetryMap.Store failed msg.ID 1) msg.ID 1,
       [Effect.invokeProcessor,
        Effect.logProcessError e (po msg.ID).2 (po msg.ID).1 msg.Attributes]) := by
  simp [processMessage, RetryMap.LoadOrStore, h]

theorem processFail_low (po : String → Int × Int) (msg : Msg) (failed : RetryMap)
    (e : String) (a : Int) (h : RetryMap.Load failed msg.ID = some a) (ha : ¬ 1 + a > 2) :
    processMessage po DeliveryType.atLeastOnce (Except.ok ()) (Except.error e) failed msg =
      (RetryMap.Store failed msg.ID (1 + a),
       [Effect.invokeProcessor,
        Effect.logProcessError e (po msg.ID).2 (po msg.ID).1 msg.Attributes]) := by
  simp [processMessage, RetryMap.LoadOrStore, h, ha]

theorem processFail_high (po : String → Int × Int) (msg : Msg) (failed : RetryMap)
    (e : String) (a : Int) (h : RetryMap.Load failed msg.ID = some a) (ha : 1 + a > 2) :
    processMessage po DeliveryType.atLeastOnce (Except.ok ()) (Except.error e) failed msg =
      (RetryMap.Delete failed msg.ID,
       [Effect.invokeProcessor,
        Effect.logProcessError e (po msg.ID).2 (po msg.ID).1 msg.Attributes,
        Effect.nack, Effect.trackerDelete msg.ID]) := by
  simp [processMessage, RetryMap.LoadOrStore, h, ha]

/-- C1: with AtLeastOnce delivery, a message whose processing fails on three
consecutive delivery attempts (no intervening success, no prior tracker
entry) is neither acked nor nacked on the first two failures, which record
attempt counts 1 and 2; the third failure nacks the message and removes its
retry-tracker entry. -/
theorem atLeastOnce_three_consecutive_failures
    (po : String → Int × Int) (msg : Msg) (failed : RetryMap) (e1 e2 e3 : String)
    (r1 r2 r3 : RetryMap × List Effect)
    (h : RetryMap.Load failed msg.ID = none)
    (h1 : processMessage po DeliveryType.atLeastOnce (Except.ok ()) (Except.error e1) failed msg = r1)
    (h2 : processMessage po DeliveryType.atLeastOnce (Except.ok ()) (Except.error e2) r1.1 msg = r2)
    (h3 : processMessage po DeliveryType.atLeastOnce (Except.ok ()) (Except.error e3) r2.1 msg = r3) :
    (Effect.ack ∉ r1.2 ∧ Effect.nack ∉ r1.2 ∧ RetryMap.Load r1.1 msg.ID = some 1) ∧
    (Effect.ack ∉ r2.2 ∧ Effect.nack ∉ r2.2 ∧ RetryMap.Load r2.1 msg.ID = some 2) ∧
    (Effect.nack ∈ r3.2 ∧ Effect.ack ∉ r3.2 ∧ RetryMap.Load r3.1 msg.ID = none) := by
  subst h1 h2 h3
  rw [processFail_first po msg failed e1 h]
  have l1 : RetryMap.Load (RetryMap.Store (RetryMap.Store failed msg.ID 1) msg.ID 1) msg.ID = some 1 :=
    RetryMap.Load_Store_self _ _ _
  rw [processFail_low po msg _ e2 1 l1 (by norm_num)]
  have l2 : RetryMap.Load (RetryMap.Store (RetryMap.Store (RetryMap.Store failed msg.ID 1) msg.ID 1) msg.ID (1 + 1)) msg.ID = some (1 + 1) :=
    RetryMap.Load_Store_self _ _ _
  rw [processFail_high po msg _ e3 (1 + 1) l2 (by norm_num)]
  refine ⟨⟨by simp, by simp, by simpa using l1⟩,
          ⟨by simp, by simp, by
            have := RetryMap.Load_Store_self
              (RetryMap.Store (RetryMap.Store failed msg.ID 1) msg.ID 1) msg.ID (1 + 1)
            norm_num at this ⊢
            exact this⟩,
          ⟨by simp, by simp, RetryMap.Load_Delete_self _ _⟩⟩

/-- Witness for C1 at a concrete message, tracker and error strings. -/
theorem atLeastOnce_three_consecutive_failures_witness :
    RetryMap.Load [] "m" = none ∧
    ((Effect.ack ∉ (processMessage (fun _ => (0, 0)) DeliveryType.atLeastOnce (Except.ok ()) (Except.error "e1") [] (Msg.mk "m" [] [])).2 ∧
      Effect.nack ∉ (processMessage (fun _ => (0, 0)) DeliveryType.atLeastOnce (Except.ok ()) (Except.error "e1") [] (Msg.mk "m" [] [])).2 ∧
      RetryMap.Load (processMessage (fun _ => (0, 0)) DeliveryType.atLeastOnce (Except.ok ()) (Except.error "e1") [] (Msg.mk "m" [] [])).1 "m" = some 1) ∧
     (Effect.ack ∉ (processMessage (fun _ => (0, 0)) DeliveryType.atLeastOnce (Except.ok ()) (Except.error "e2") (processMessage (fun _ => (0, 0)) DeliveryType.atLeastOnce (Except.ok ()) (Except.error "e1") [] (Msg.mk "m" [] [])).1 (Msg.mk "m" [] [])).2 ∧
      Effect.nack ∉ (processMessage (fun _ => (0, 0)) DeliveryType.atLeastOnce (Except.ok ()) (Except.error "e2") (processMessage (fun _ => (0, 0)) DeliveryType.atLeastOnce (Except.ok ()) (Except.error "e1") [] (Msg.mk "m" [] [])).1 (Msg.mk "m" [] [])).2 ∧
      RetryMap.Load (processMessage (fun _ => (0, 0)) DeliveryType.atLeastOnce (Except.ok ()) (Except.error "e2") (processMessage (fun _ => (0, 0)) DeliveryType.atLeastOnce (Except.ok ()) (Except.error "e1") [] (Msg.mk "m" [] [])).1 (Msg.mk "m" [] [])).1 "m" = some 2) ∧
     (Effect.nack ∈ (processMessage (fun _ => (0, 0)) DeliveryType.atLeastOnce (Except.ok ()) (Except.error "e3") (processMessage (fun _ => (0, 0)) DeliveryType.atLeastOnce (Except.ok ()) (Except.error "e2") (processMessage (fun _ => (0, 0)) DeliveryType.atLeastOnce (Except.ok ()) (Except.error "e1") [] (Msg.mk "m" [] [])).1 (Msg.mk "m" [] [])).1 (Msg.mk "m" [] [])).2 ∧
      Effect.ack ∉ (processMessage (fun _ => (0, 0)) DeliveryType.atLeastOnce (Except.ok ()) (Except.error "e3") (processMessage (fun _ => (0, 0)) DeliveryType.atLeastOnce (Except.ok ()) (Except.error "e2") (processMessage (fun _ => (0, 0)) DeliveryType.atLeastOnce (Except.ok ()) (Except.error "e1") [] (Msg.mk "m" [] [])).1 (Msg.mk "m" [] [])).1 (Msg.mk "m" [] [])).2 ∧
      RetryMap.Load (processMessage (fun _ => (0, 0)) DeliveryType.atLeastOnce (Except.ok ()) (Except.error "e3") (processMessage (fun _ => (0, 0)) DeliveryType.atLeastOnce (Except.ok ()) (Except.error "e2") (processMessage (fun _ => (0, 0)) DeliveryType.atLeastOnce (Except.ok ()) (Except.error "e1") [] (Msg.mk "m" [] [])).1 (Msg.mk "m" [] [])).1 (Msg.mk "m" [] [])).1 "m" = none)) :=
  ⟨rfl, atLeastOnce_three_consecutive_failures (fun _ => (0, 0)) (Msg.mk "m" [] []) [] "e1" "e2" "e3" _ _ _ rfl rfl rfl rfl⟩

/-- C2 (code bug): two concurrent failed deliveries of the same message ID,
scheduled as LoadOrStore of thread 0, LoadOrStore of thread 1, Store of
thread 1, Store of thread 0, leave attempt count 1 in the tracker although
two failures were observed and neither attempt nacked: the increment of
thread 1 is lost, because the code's LoadOrStore and its later Store are two
separate operations, not one atomic load-or-store-and-increment. -/
theorem concurrent_failures_lose_increment :
    runSchedule "m" [false, true, true, false] [] FailPhase.start FailPhase.start =
      ([("m", 1)], FailPhase.done false, FailPhase.done false) ∧
    RetryMap.Load (runSchedule "m" [false, true, true, false] [] FailPhase.start FailPhase.start).1 "m" = some 1 ∧
    RetryMap.Load (runSchedule "m" [false, true, true, false] [] FailPhase.start FailPhase.start).1 "m" ≠ some 2 := by
  refine ⟨rfl, rfl, by decide⟩

/-- C3: with AtMostOnce delivery, a message that decodes successfully is
acknowledged exactly once (the ack is the first effect and never recurs),
the ack precedes the batch-processor invocation, the message is never
nacked, the tracker is untouched, and a processing failure only appends a
log record to the effects of the successful run. -/
theorem atMostOnce_ack_before_processor
    (po : String → Int × Int) (msg : Msg) (failed : RetryMap)
    (procRes : Except String Unit) (e : String) :
    (processMessage po DeliveryType.atMostOnce (Except.ok ()) procRes failed msg).2.head? =
      some Effect.ack ∧
    Effect.ack ∉ (processMessage po DeliveryType.atMostOnce (Except.ok ()) procRes failed msg).2.tail ∧
    Effect.invokeProcessor ∈ (processMessage po DeliveryType.atMostOnce (Except.ok ()) procRes failed msg).2.tail ∧
    Effect.nack ∉ (processMessage po DeliveryType.atMostOnce (Except.ok ()) procRes failed msg).2 ∧
    (processMessage po DeliveryType.atMostOnce (Except.ok ()) procRes failed msg).1 = failed ∧
    (processMessage po DeliveryType.atMostOnce (Except.ok ()) (Except.error e) failed msg).2 =
      (processMessage po DeliveryType.atMostOnce (Except.ok ()) (Except.ok ()) failed msg).2 ++
        [Effect.logProcessError e (po msg.ID).2 (po msg.ID).1 msg.Attributes] := by
  cases procRes <;> simp [processMessage]

/-- C4 (code bug): with AtLeastOnce delivery, a message that succeeds on its
very first delivery, with an empty retry tracker, still gets the
"processed previously failed event" recovery notice: the code logs it
unconditionally on success instead of only when the identifier was present
in the retry tracker. -/
theorem recovery_notice_logged_without_prior_failure :
    RetryMap.Load [] "m" = none ∧
    (processMessage (fun _ => (0, 0)) DeliveryType.atLeastOnce (Except.ok ()) (Except.ok ())
        [] (Msg.mk "m" [] [])).2 =
      [Effect.invokeProcessor, Effect.logRecovered 0 0 [], Effect.ack,
       Effect.trackerDelete "m"] := by
  exact ⟨rfl, rfl⟩

/-- C5 (code bug): Close on a consumer whose Run was never invoked finds a
nil stopSubscriber and invokes it anyway, which is a Go runtime panic, not a
safe no-op returning nil. -/
theorem close_without_run_panics :
    Consumer.Close (ConsumerState.mk none 1 0) = CloseOutcome.panicNilCall ∧
    Consumer.Close (ConsumerState.mk none 1 0) ≠ CloseOutcome.ret none := by
  refine ⟨rfl, by decide⟩

/-- C6: a message whose payload fails to decode is nacked, a diagnostic
carrying the decode error, raw payload, offset, partition and attributes is
emitted, the retry tracker is left untouched, the batch processor is not
invoked, and the message is not acknowledged — for every delivery type and
regardless of what the processor would have returned. -/
theorem decode_failure_nacked_without_retry
    (po : String → Int × Int) (delivery : DeliveryType)
    (procRes : Except String Unit) (failed : RetryMap) (msg : Msg) (e : String) :
    (processMessage po delivery (Except.error e) procRes failed msg).1 = failed ∧
    Effect.nack ∈ (processMessage po delivery (Except.error e) procRes failed msg).2 ∧
    Effect.logDecodeError e msg.Data (po msg.ID).2 (po msg.ID).1 msg.Attributes ∈
      (processMessage po delivery (Except.error e) procRes failed msg).2 ∧
    Effect.invokeProcessor ∉ (processMessage po delivery (Except.error e) procRes failed msg).2 ∧
    Effect.ack ∉ (processMessage po delivery (Except.error e) procRes failed msg).2 := by
  simp [processMessage]

/-- C7: calling Run a second time on a consumer that has already been
started returns the "pubsublite: consumer already started" error, starts no
further receive loops, and leaves the consumer state (including the stored
cancellation function) exactly as the first call left it. -/
theorem run_twice_returns_already_started (c : ConsumerState)
    (h : c.stopSubscriber = none) :
    (Consumer.Run c).1 = none ∧
    (Consumer.Run (Consumer.Run c).2).1 = some "pubsublite: consumer already started" ∧
    (Consumer.Run (Consumer.Run c).2).2 = (Consumer.Run c).2 := by
  obtain ⟨s, n, l⟩ := c
  simp only at h
  subst h
  simp [Consumer.Run]

/-- Witness for C7 on a concrete fresh consumer with two subscriptions. -/
theorem run_twice_returns_already_started_witness :
    (ConsumerState.mk none 2 0).stopSubscriber = none ∧
    ((Consumer.Run (ConsumerState.mk none 2 0)).1 = none ∧
     (Consumer.Run (Consumer.Run (ConsumerState.mk none 2 0)).2).1 =
       some "pubsublite: consumer already started" ∧
     (Consumer.Run (Consumer.Run (ConsumerState.mk none 2 0)).2).2 =
       (Consumer.Run (ConsumerState.mk none 2 0)).2) :=
  ⟨rfl, run_twice_returns_already_started (ConsumerState.mk none 2 0) rfl⟩

theorem mem_ite_singleton (a b : String) (c : Prop) [Decidable c] :
    (a ∈ (if c then [b] else [])) ↔ c ∧ a = b := by
  split <;> simp_all

/-- C8: Validate accumulates no error message exactly when the topic list is
non-empty, project and region are non-empty, decoder, logger and processor
are non-nil, and the delivery type is one of the two recognised values; and
each requirement's error message appears in the accumulated list exactly
when that requirement is violated, so all violations are reported together. -/
theorem Validate_ok_iff_and_aggregates_all_violations (cfg : ConsumerConfig) :
    (ConsumerConfig.Validate cfg = [] ↔
      (cfg.Topics ≠ [] ∧ cfg.Project ≠ "" ∧ cfg.Region ≠ "" ∧ cfg.Decoder ≠ none ∧
       cfg.Logger ≠ none ∧ cfg.Processor ≠ none ∧
       (cfg.Delivery = DeliveryType.atMostOnce ∨ cfg.Delivery = DeliveryType.atLeastOnce))) ∧
    ("pubsublite: at least one topic must be set" ∈ ConsumerConfig.Validate cfg ↔
      cfg.Topics = []) ∧
    ("pubsublite: project must be set" ∈ ConsumerConfig.Validate cfg ↔ cfg.Project = "") ∧
    ("pubsublite: region must be set" ∈ ConsumerConfig.Validate cfg ↔ cfg.Region = "") ∧
    ("pubsublite: decoder must be set" ∈ ConsumerConfig.Validate cfg ↔ cfg.Decoder = none) ∧
    ("pubsublite: logger must be set" ∈ ConsumerConfig.Validate cfg ↔ cfg.Logger = none) ∧
    ("pubsublite: processor must be set" ∈ ConsumerConfig.Validate cfg ↔
      cfg.Processor = none) ∧
    ("pubsublite: delivery is not valid" ∈ ConsumerConfig.Validate cfg ↔
      ¬(cfg.Delivery = DeliveryType.atMostOnce ∨ cfg.Delivery = DeliveryType.atLeastOnce)) := by
  obtain ⟨Reg, Proj, Top, Dec, Log, Proc, Del⟩ := cfg
  cases Del <;>
    simp [ConsumerConfig.Validate, mem_ite_singleton, List.append_eq_nil,
      ite_eq_right_iff, List.length_eq_zero]

/-- C9: the per-subscription receive loop re-invokes Receive after any
number of backend-unavailable results without terminating, terminates with
the first result that is not backend-unavailable and propagates exactly that
result, and never surfaces the backend-unavailable sentinel itself. -/
theorem receiveLoop_retries_backend_unavailable (n : Nat) (e : Option GoErr)
    (rest results : List (Option GoErr))
    (he : e ≠ some GoErr.backendUnavailable) :
    receiveLoop (List.replicate n (some GoErr.backendUnavailable)) = none ∧
    receiveLoop (List.replicate n (some GoErr.backendUnavailable) ++ e :: rest) = some e ∧
    receiveLoop results ≠ some (some GoErr.backendUnavailable) := by
  refine ⟨?_, ?_, ?_⟩
  · induction n with
    | zero => simp [receiveLoop]
    | succ k ih => simpa [List.replicate_succ, receiveLoop] using ih
  · induction n with
    | zero =>
        rcases e with _ | g
        · simp [receiveLoop]
        · cases g
          · exact absurd rfl he
          · simp [receiveLoop]
    | succ k ih => simpa [List.replicate_succ, receiveLoop] using ih
  · induction results with
    | nil => simp [receiveLoop]
    | cons r tl ih =>
        rcases r with _ | g
        · simp [receiveLoop]
        · cases g
          · simpa [receiveLoop] using ih
          · simp [receiveLoop]

/-- Witness for C9: two transient results then a fatal error. -/
theorem receiveLoop_retries_backend_unavailable_witness :
    (some (GoErr.fatal "boom") ≠ some GoErr.backendUnavailable) ∧
    (receiveLoop (List.replicate 2 (some GoErr.backendUnavailable)) = none ∧
     receiveLoop (List.replicate 2 (some GoErr.backendUnavailable) ++
        some (GoErr.fatal "boom") :: []) = some (some (GoErr.fatal "boom")) ∧
     receiveLoop [none] ≠ some (some GoErr.backendUnavailable)) :=
  ⟨by decide,
   receiveLoop_retries_backend_unavailable 2 (some (GoErr.fatal "boom")) [] [none] (by decide)⟩

/-- C10: the SASL mechanism built by NewFromCredential requests a token for
exactly the single scope "https://" ++ ns ++ "/.default" — its behaviour
depends on the credential only through that one request — and it yields the
returned token on success and the zero Auth value together with the
credential's unchanged error on failure. -/
theorem NewFromCredential_scope_and_outcomes
    (cred cred2 : TokenRequestOptions → Except String AccessToken)
    (ns : String) (t : AccessToken) (e : String) :
    (cred (TokenRequestOptions.mk ["https://" ++ ns ++ "/.default"]) =
       cred2 (TokenRequestOptions.mk ["https://" ++ ns ++ "/.default"]) →
     NewFromCredential cred ns = NewFromCredential cred2 ns) ∧
    (cred (TokenRequestOptions.mk ["https://" ++ ns ++ "/.default"]) = Except.ok t →
     NewFromCredential cred ns = (Auth.mk t.Token, none)) ∧
    (cred (TokenRequestOptions.mk ["https://" ++ ns ++ "/.default"]) = Except.error e →
     NewFromCredential cred ns = (Auth.mk "", some e)) := by
  refine ⟨fun h => ?_, fun h => ?_, fun h => ?_⟩ <;> simp [NewFromCredential, h]

/-- Witness for C10 with a succeeding and a failing credential. -/
theorem NewFromCredential_scope_and_outcomes_witness :
    NewFromCredential (fun _ => Except.ok (AccessToken.mk "tok")) "contoso.example" =
      (Auth.mk "tok", none) ∧
    NewFromCredential (fun _ => Except.error "boom") "contoso.example" =
      (Auth.mk "", some "boom") ∧
    NewFromCredential (fun _ => Except.ok (AccessToken.mk "tok")) "contoso.example" =
      NewFromCredential (fun _ => Except.ok (AccessToken.mk "tok")) "contoso.example" :=
  ⟨(NewFromCredential_scope_and_outcomes (fun _ => Except.ok (AccessToken.mk "tok"))
      (fun _ => Except.ok (AccessToken.mk "tok")) "contoso.example"
      (AccessToken.mk "tok") "boom").2.1 rfl,
   (NewFromCredential_scope_and_outcomes (fun _ => Except.error "boom")
      (fun _ => Except.error "boom") "contoso.example"
      (AccessToken.mk "tok") "boom").2.2 rfl,
   (NewFromCredential_scope_and_outcomes (fun _ => Except.ok (AccessToken.mk "tok"))
      (fun _ => Except.ok (AccessToken.mk "tok")) "contoso.example"
      (AccessToken.mk "tok") "boom").1 rfl⟩
